import Mathlib

/-!
Verification of soporte.py (Laboratorio-APIs).

This file gives a shallow embedding of the functions of src/soporte.py and
proves the spec claims about them.  Python/JSON values are modelled by the
inductive type PyVal; pandas DataFrames by the structure Df (a column list
plus a row-major table of values); the requests layer is modelled by passing
the HTTP response explicitly to the function under study; console output is
modelled by returning the list of printed lines; code that can raise a
Python exception is modelled in the Except monad, the error string naming
the exception class.
-/

set_option autoImplicit false

namespace Soporte

mutual

/-- Python/JSON values as they occur in the script: the objects returned by
the Foursquare API (parsed JSON), np.nan, and Python None.  Dictionaries are
modelled as association lists in the (fixed) key order in which the API
serialises them, so that Lean equality coincides with Python equality of the
records handled by the script. -/
inductive PyVal where
  | vnone : PyVal
  | vnan : PyVal
  | vbool : Bool → PyVal
  | vint : Int → PyVal
  | vstr : String → PyVal
  | vlist : PyList → PyVal
  | vdict : PyDict → PyVal
deriving DecidableEq, Repr

/-- A Python list of values. -/
inductive PyList where
  | nil : PyList
  | cons : PyVal → PyList → PyList
deriving DecidableEq, Repr

/-- A Python dictionary: an association list of string keys and values, in
insertion order, with no repeated key. -/
inductive PyDict where
  | dnil : PyDict
  | dcons : String → PyVal → PyDict → PyDict
deriving DecidableEq, Repr

end

/-- The elements of a modelled Python list, as a Lean list. -/
def PyList.toList : PyList → List PyVal
  | .nil => []
  | .cons v t => v :: t.toList

/-- Lookup of a key in a modelled Python dictionary (first binding wins,
as dictionaries never hold a key twice). -/
def PyDict.lookup : PyDict → String → Option PyVal
  | .dnil, _ => none
  | .dcons k2 v rest, k => if k2 = k then some v else rest.lookup k

/-- Keys of a modelled dictionary, in order. -/
def PyDict.keys : PyDict → List String
  | .dnil => []
  | .dcons k _ rest => k :: rest.keys

/-- Builds a modelled dictionary from an association list. -/
def PyDict.ofList : List (String × PyVal) → PyDict
  | [] => .dnil
  | (k, v) :: rest => .dcons k v (ofList rest)

/-- Python subscript x[k]: KeyError when the dictionary lacks the key,
TypeError when the value is not a dictionary (soporte.py line 154 uses this
on the geocodes column). -/
def pySubscript (x : PyVal) (k : String) : Except String PyVal :=
  match x with
  | .vdict d =>
      match d.lookup k with
      | some v => .ok v
      | none => .error ("KeyError: " ++ k)
  | _ => .error "TypeError: value is not subscriptable"

/-- Python x.get(k) on a value: returns the binding or None on a dictionary,
raises AttributeError on anything else (soporte.py lines 155-156 use this on
the Coordenadas column, line 135 on the location column). -/
def pyGet (x : PyVal) (k : String) : Except String PyVal :=
  match x with
  | .vdict d => .ok ((d.lookup k).getD .vnone)
  | _ => .error "AttributeError: value has no attribute get"

/-- Embedding of sacar_valor (soporte.py lines 124-137): try dc.get(
formatted_address) and return np.nan if anything raises.  The try/except
makes the function total. -/
def sacar_valor (dc : PyVal) : PyVal :=
  match pyGet dc "formatted_address" with
  | .ok v => v
  | .error _ => .vnan

/-! ### The Foursquare places-search client (soporte.py lines 78-121) -/

/-- Python truthiness of an optional string argument: None and the empty
string are falsy, any other string is truthy.  This is the test performed by
the lines if categoria: / elif query: in soporte.py. -/
def truthy : Option String → Bool
  | none => false
  | some s => !s.isEmpty

/-- Embedding of the params dictionary built by buscar_lugares_cercanos
(soporte.py lines 100-110): ll and radius always, then categories if
categoria is truthy, else query if query is truthy.  Coordinates are passed
as the pair of their decimal renderings, as the f-string interpolates them. -/
def buscar_params (coordenadas : String × String) (categoria : Option String)
    (query : Option String) (distancia : Int) : List (String × PyVal) :=
  let params := [("ll", PyVal.vstr (coordenadas.1 ++ "," ++ coordenadas.2)),
                 ("radius", PyVal.vint distancia)]
  match categoria with
  | some c =>
      if c.isEmpty then
        match query with
        | some q => if q.isEmpty then params else params ++ [("query", PyVal.vstr q)]
        | none => params
      else params ++ [("categories", PyVal.vstr c)]
  | none =>
      match query with
      | some q => if q.isEmpty then params else params ++ [("query", PyVal.vstr q)]
      | none => params

/-- The keys of an outgoing parameter dictionary. -/
def llaves (params : List (String × PyVal)) : List String := params.map Prod.fst

/-- An HTTP response: its status code and the value its body parses to. -/
structure Respuesta where
  status_code : Nat
  json : PyVal
deriving DecidableEq, Repr

/-- Embedding of buscar_lugares_cercanos (soporte.py lines 78-121).  The
network is modelled by passing the response of the single GET explicitly.
The result records the parameters sent with the request, the value returned
by the Python function (None is modelled by Option.none, reached by the
fall-through when the status is not 200), and the printed lines. -/
def buscar_lugares_cercanos (coordenadas : String × String)
    (categoria : Option String) (query : Option String) (distancia : Int)
    (response : Respuesta) : List (String × PyVal) × Option PyVal × List String :=
  (buscar_params coordenadas categoria query distancia,
   if response.status_code = 200 then (some response.json, [])
   else (none, ["Error " ++ toString response.status_code]))

/-! ### The coordinate validator (soporte.py lines 49-75) -/

/-- A location record as produced by get_locations, restricted to the two
numeric fields check_locations reads. -/
structure Ubicacion where
  Latitud : ℚ
  Longitud : ℚ
deriving DecidableEq, Repr

/-- Decides whether a record violates the coordinate ranges tested by
check_locations: latitude outside [-90, 90] or longitude outside
[-180, 180]. -/
def esMala (loc : Ubicacion) : Bool :=
  decide (loc.Latitud > 90 ∨ loc.Latitud < -90) ||
  decide (loc.Longitud > 180 ∨ loc.Longitud < -180)

/-- The loop of check_locations (soporte.py lines 62-72): walks the
locations by index, printing an error line naming towns[i] for each
violating record and clearing the ok flag; the access towns[i] raises
IndexError when i is out of range of towns.  Returns the printed lines and
the final ok flag. -/
def check_loop (towns : List String) : List Ubicacion → Nat → Bool →
    Except String (List String × Bool)
  | [], _, ok => .ok ([], ok)
  | loc :: rest, i, ok =>
      if loc.Latitud > 90 ∨ loc.Latitud < -90 then
        match towns[i]? with
        | some t =>
            match check_loop towns rest (i + 1) false with
            | .ok (msgs, okEnd) => .ok (("Error en " ++ t) :: msgs, okEnd)
            | .error e => .error e
        | none => .error "IndexError: list index out of range"
      else if loc.Longitud > 180 ∨ loc.Longitud < -180 then
        match towns[i]? with
        | some t =>
            match check_loop towns rest (i + 1) false with
            | .ok (msgs, okEnd) => .ok (("Error en " ++ t) :: msgs, okEnd)
            | .error e => .error e
        | none => .error "IndexError: list index out of range"
      else check_loop towns rest (i + 1) ok

/-- Embedding of check_locations (soporte.py lines 49-75): runs the loop
with ok initially True and appends the success line when ok survives.
Returns the printed lines; an error models a raised exception. -/
def check_locations (towns : List String) (locations : List Ubicacion) :
    Except String (List String) :=
  match check_loop towns locations 0 true with
  | .ok (msgs, ok) =>
      .ok (msgs ++ if ok then ["Todas las coordenadas concuerdan"] else [])
  | .error e => .error e

/-! ### A pandas DataFrame model -/

/-- A pandas DataFrame: a list of column labels and the rows, each row
holding the values of the columns in the same order. -/
structure Df where
  cols : List String
  rows : List (List PyVal)
deriving DecidableEq, Repr

/-- The value a row holds in a named column (the first column of that name,
as in pandas). -/
def valorColumna (df : Df) (r : List PyVal) (c : String) : PyVal :=
  r.getD (df.cols.indexOf c) PyVal.vnone

/-- Reading the column c of a DataFrame, df[c] in pandas: the list of its
values, or KeyError when no column has that label. -/
def getCol (df : Df) (c : String) : Except String (List PyVal) :=
  if c ∈ df.cols then .ok (df.rows.map (fun r => valorColumna df r c))
  else .error ("KeyError: " ++ c)

/-- Writing the column c of a DataFrame, df[c] = vs in pandas: overwrite the
existing column of that label, or append a new column on the right. -/
def setCol (df : Df) (c : String) (vs : List PyVal) : Df :=
  if c ∈ df.cols then
    { cols := df.cols,
      rows := (df.rows.zip vs).map (fun p => p.1.set (df.cols.indexOf c) p.2) }
  else
    { cols := df.cols ++ [c],
      rows := (df.rows.zip vs).map (fun p => p.1 ++ [p.2]) }

/-- Applies a fallible function to every element of a list, stopping at the
first raised exception; models Series.apply of a lambda that can raise. -/
def mapE (f : PyVal → Except String PyVal) : List PyVal → Except String (List PyVal)
  | [] => .ok []
  | v :: t =>
      match f v with
      | .error e => .error e
      | .ok w =>
          match mapE f t with
          | .error e => .error e
          | .ok ws => .ok (w :: ws)

/-- df[dst] = df[src].apply(f) for a fallible f: read the source column,
apply f to each value, store the results as column dst.  Any exception
raised by f (or the KeyError of a missing source column) propagates. -/
def applyColE (df : Df) (src dst : String) (f : PyVal → Except String PyVal) :
    Except String Df :=
  match getCol df src with
  | .error e => .error e
  | .ok vs =>
      match mapE f vs with
      | .error e => .error e
      | .ok ws => .ok (setCol df dst ws)

/-- The filter underlying drop_duplicates([name], keep=first): keep each row
whose value in column number idx has not been seen before. -/
def dropDupFirst (idx : Nat) (seen : List PyVal) : List (List PyVal) → List (List PyVal)
  | [] => []
  | r :: t =>
      let k := r.getD idx PyVal.vnone
      if k ∈ seen then dropDupFirst idx seen t
      else r :: dropDupFirst idx (k :: seen) t

/-- The rows surviving duplicate removal by the name column, first
occurrence kept, in input order. -/
def nameDedupRows (df : Df) : List (List PyVal) :=
  dropDupFirst (df.cols.indexOf "name") [] df.rows

/-- Embedding of df.drop_duplicates([name], keep=first, inplace=True)
(soporte.py line 151): KeyError when there is no name column, else keep the
first row of each name. -/
def drop_duplicates_name (df : Df) : Except String Df :=
  if "name" ∈ df.cols then .ok { cols := df.cols, rows := nameDedupRows df }
  else .error "KeyError: name"

/-- Embedding of df.drop(columns=cs, inplace=True): KeyError when one of the
labels is absent, else remove every column with one of the labels. -/
def dropCols (df : Df) (cs : List String) : Except String Df :=
  if cs.all (fun c => c ∈ df.cols) then
    .ok { cols := df.cols.filter (fun c => c ∉ cs),
          rows := df.rows.map (fun r =>
            ((df.cols.zip r).filter (fun p => p.1 ∉ cs)).map Prod.snd) }
  else .error "KeyError: drop"

/-- The renaming applied by df.rename: replace a label by its image under
the mapping, if any. -/
def renombrar (m : List (String × String)) (c : String) : String :=
  match m.lookup c with
  | some c2 => c2
  | none => c

/-- Embedding of df.rename(columns=m, inplace=True): relabel every column,
labels without a mapping staying as they are.  Missing mapping sources are
not an error in pandas. -/
def renameCols (df : Df) (m : List (String × String)) : Df :=
  { cols := df.cols.map (renombrar m), rows := df.rows }

/-- The column mapping of soporte.py line 167. -/
def renombres : List (String × String) := [("distance", "Distancia"), ("name", "Nombre")]

/-- Embedding of limpieza_df (soporte.py lines 140-169), statement by
statement: duplicate removal by name; the Coordenadas, Latitud, Longitud and
Direccion column assignments; the three column drops; the final rename.  An
error models the Python exception aborting the call. -/
def limpieza_df (df : Df) : Except String Df :=
  match drop_duplicates_name df with
  | .error e => .error e
  | .ok df1 =>
  match applyColE df1 "geocodes" "Coordenadas" (fun x => pySubscript x "main") with
  | .error e => .error e
  | .ok df2 =>
  match applyColE df2 "Coordenadas" "Latitud" (fun x => pyGet x "latitude") with
  | .error e => .error e
  | .ok df3 =>
  match applyColE df3 "Coordenadas" "Longitud" (fun x => pyGet x "longitude") with
  | .error e => .error e
  | .ok df4 =>
  match applyColE df4 "location" "Direccion" (fun x => .ok (sacar_valor x)) with
  | .error e => .error e
  | .ok df5 =>
  match dropCols df5 ["fsq_id", "categories", "chains", "closed_bucket", "link",
                      "related_places", "timezone"] with
  | .error e => .error e
  | .ok df6 =>
  match dropCols df6 ["geocodes"] with
  | .error e => .error e
  | .ok df7 =>
  match dropCols df7 ["location", "Coordenadas"] with
  | .error e => .error e
  | .ok df8 => .ok (renameCols df8 renombres)

/-! ### The batch loop obtener_df_lugares (soporte.py lines 172-202) -/

/-- The inner loop of soporte.py lines 197-199: for each record of one call,
append it to the accumulator unless an equal record is already there.  The
loop only uses membership, so it is stated for any type with decidable
equality; the script runs it on parsed JSON records. -/
def agregar {α : Type} [DecidableEq α] (resultados : List α) (lugares : List α) : List α :=
  lugares.foldl (fun acc l => if l ∈ acc then acc else acc ++ [l]) resultados

/-- The accumulator after the whole batch: the inner loop run over the
record lists of the successive calls, starting from the empty list. -/
def acumular {α : Type} [DecidableEq α] (llamadas : List (List α)) : List α :=
  llamadas.foldl agregar []

/-- One element for each distinct value of the input, at its first
occurrence, in order; the reference description of what the accumulator
holds. -/
def firstDedup {α : Type} [DecidableEq α] : List α → List α
  | [] => []
  | a :: t => a :: (firstDedup t).filter (fun b => b ≠ a)

/-- Embedding of res.get(results, []) followed by iteration (soporte.py line
197).  res is the value returned by buscar_lugares_cercanos: None after a
non-200 response, on which .get raises AttributeError; on a dictionary the
results list is read with [] as default; iterating a non-list raises
TypeError. -/
def obtener_resultados (res : Option PyVal) : Except String (List PyVal) :=
  match res with
  | none => .error "AttributeError: NoneType object has no attribute get"
  | some (.vdict d) =>
      match (d.lookup "results").getD (.vlist .nil) with
      | .vlist l => .ok l.toList
      | _ => .error "TypeError: value is not iterable"
  | some _ => .error "AttributeError: value has no attribute get"

/-- The outer loop of soporte.py lines 188-199 over the responses of the
successive calls, threading the accumulator. -/
def bucle (resultados : List PyVal) : List (Option PyVal) → Except String (List PyVal)
  | [] => .ok resultados
  | res :: rest =>
      match obtener_resultados res with
      | .error e => .error e
      | .ok lugares => bucle (agregar resultados lugares) rest

/-- The keys of a record, [] for a non-dictionary, as pd.DataFrame reads
them. -/
def clavesRegistro : PyVal → List String
  | .vdict d => d.keys
  | _ => []

/-- Embedding of pd.DataFrame(records) on a list of dictionaries: the
columns are the keys in first-seen order and a missing key is filled with
NaN. -/
def pdDataFrame (records : List PyVal) : Df :=
  let cols := firstDedup (records.map clavesRegistro).flatten
  { cols := cols,
    rows := records.map (fun r => cols.map (fun c =>
      match r with
      | .vdict d => (d.lookup c).getD .vnan
      | _ => .vnan)) }

/-- Embedding of obtener_df_lugares (soporte.py lines 172-202).  The
network is modelled by the list of responses the successive calls to
buscar_lugares_cercanos return (None for a non-200 response); the sleep has
no observable effect.  The accumulated records are turned into a DataFrame
and cleaned. -/
def obtener_df_lugares (respuestas : List (Option PyVal)) : Except String Df :=
  match bucle [] respuestas with
  | .error e => .error e
  | .ok resultados => limpieza_df (pdDataFrame resultados)

/-! ### A reference store, for the in-place behaviour of limpieza_df

Python passes the DataFrame by object reference and every pandas operation
in limpieza_df carries inplace=True (or is a column assignment), so the
function rewrites the object its argument points to and returns that same
reference.  The heap is modelled as a list of DataFrames indexed by
address. -/

/-- Embedding of limpieza_df called on the object at address a of the store:
the statements of limpieza_df rewrite that object in place, and the df
returned on line 169 is the same reference the caller passed in. -/
def limpieza_df_ref (store : List Df) (a : Nat) : Except String (List Df × Nat) :=
  match store[a]? with
  | none => .error "invalid reference"
  | some df =>
      match limpieza_df df with
      | .error e => .error e
      | .ok out => .ok (store.set a out, a)

/-! ### Concrete example data, used to instantiate the theorems -/

/-- The columns of a raw places DataFrame as the API returns them. -/
def colsLugares : List String :=
  ["name", "geocodes", "location", "fsq_id", "categories", "chains",
   "closed_bucket", "link", "related_places", "timezone", "distance"]

/-- A well-formed geocodes value: a dictionary holding a main object with
latitude and longitude. -/
def geoBueno : PyVal :=
  .vdict (.dcons "main"
    (.vdict (.dcons "latitude" (.vint 40) (.dcons "longitude" (.vint (-3)) .dnil)))
    .dnil)

/-- A geocodes dictionary lacking the main key. -/
def geoSinMain : PyVal := .vdict .dnil

/-- A location value holding a formatted address. -/
def locBueno : PyVal := .vdict (.dcons "formatted_address" (.vstr "Calle Mayor 1") .dnil)

/-- A raw row of a places DataFrame over colsLugares. -/
def filaLugar (n : String) (g l : PyVal) : List PyVal :=
  [.vstr n, g, l, .vstr "id", .vlist .nil, .vlist .nil, .vstr "VeryLikelyOpen",
   .vstr "link", .vdict .dnil, .vstr "Europe/Madrid", .vint 250]

/-- A places DataFrame whose second row repeats the first name and lacks the
main geocode; the row is removed as a duplicate before the geocode step. -/
def dfLugares : Df :=
  { cols := colsLugares,
    rows := [filaLugar "a" geoBueno locBueno,
             filaLugar "a" geoSinMain locBueno,
             filaLugar "b" geoBueno locBueno] }

/-- A places DataFrame with every column limpieza_df requires except
distance. -/
def dfSinDistancia : Df :=
  { cols := colsLugares.take 10, rows := [(filaLugar "a" geoBueno locBueno).take 10] }

/-- A two-column DataFrame whose only row lacks the main geocode and
survives duplicate removal. -/
def dfMalGeo : Df :=
  { cols := ["name", "geocodes"], rows := [[.vstr "a", geoSinMain]] }

/-- The value limpieza_df returns on dfLugares. -/
def dfLugaresLimpio : Df :=
  { cols := ["Nombre", "Distancia", "Latitud", "Longitud", "Direccion"],
    rows := [[.vstr "a", .vint 250, .vint 40, .vint (-3), .vstr "Calle Mayor 1"],
             [.vstr "b", .vint 250, .vint 40, .vint (-3), .vstr "Calle Mayor 1"]] }

/-- The value limpieza_df returns on dfSinDistancia: no Distancia column. -/
def dfSinDistanciaLimpio : Df :=
  { cols := ["Nombre", "Latitud", "Longitud", "Direccion"],
    rows := [[.vstr "a", .vint 40, .vint (-3), .vstr "Calle Mayor 1"]] }

/-- A batch of two calls, each returning two distinct records, the first one
repeating its first record, with no record shared between the calls. -/
def llamadasEjemplo : List (List PyVal) :=
  [[.vint 1, .vint 2, .vint 1], [.vint 3, .vint 4]]

/-! ### Helper lemmas about the DataFrame operations -/

theorem mapE_ok_length {f : PyVal → Except String PyVal} :
    ∀ {l ws}, mapE f l = .ok ws → ws.length = l.length := by
  intro l
  induction l with
  | nil => intro ws h; simp only [mapE, Except.ok.injEq] at h; subst h; rfl
  | cons v t ih =>
      intro ws h
      simp only [mapE] at h
      split at h
      · exact absurd h (by simp)
      · split at h
        · exact absurd h (by simp)
        next ws2 hws2 =>
          simp only [Except.ok.injEq] at h
          subst h
          simp [ih hws2]

theorem mapE_error_of_mem (f : PyVal → Except String PyVal) {v : PyVal} {e : String} :
    ∀ {l}, v ∈ l → f v = .error e → ∃ e2, mapE f l = .error e2 := by
  intro l
  induction l with
  | nil => intro hv; exact absurd hv (by simp)
  | cons w t ih =>
      intro hv he
      rcases List.mem_cons.mp hv with h1 | h1
      · subst h1
        exact ⟨e, by simp only [mapE, he]⟩
      · rcases ih h1 he with ⟨e2, he2⟩
        cases hw : f w with
        | error e3 => exact ⟨e3, by simp only [mapE, hw]⟩
        | ok w2 => exact ⟨e2, by simp only [mapE, hw, he2]⟩

theorem mapE_total (g : PyVal → PyVal) :
    ∀ l, mapE (fun x => .ok (g x)) l = .ok (l.map g) := by
  intro l
  induction l with
  | nil => rfl
  | cons v t ih => simp only [mapE, ih, List.map]

theorem getCol_of_mem {df : Df} {c : String} (hc : c ∈ df.cols) :
    getCol df c = .ok (df.rows.map (fun r => valorColumna df r c)) := by
  simp only [getCol, if_pos hc]

theorem getCol_ok {df : Df} {c : String} {vs : List PyVal} (h : getCol df c = .ok vs) :
    c ∈ df.cols ∧ vs = df.rows.map (fun r => valorColumna df r c) := by
  by_cases hc : c ∈ df.cols
  · refine ⟨hc, ?_⟩
    rw [getCol_of_mem hc] at h
    simpa using h.symm
  · simp only [getCol, if_neg hc] at h
    exact absurd h (by simp)

theorem setCol_cols_sub {df : Df} {c : String} {vs : List PyVal} {x : String}
    (hx : x ∈ df.cols) : x ∈ (setCol df c vs).cols := by
  simp only [setCol]
  split <;> simp [hx]

theorem setCol_cols_super {df : Df} {c : String} {vs : List PyVal} {x : String}
    (hx : x ∈ (setCol df c vs).cols) : x ∈ df.cols ∨ x = c := by
  simp only [setCol] at hx
  split at hx
  · exact Or.inl hx
  · simpa using hx

theorem setCol_rows_length {df : Df} {c : String} {vs : List PyVal}
    (h : vs.length = df.rows.length) : (setCol df c vs).rows.length = df.rows.length := by
  simp only [setCol]
  split <;> simp [List.length_zip, h]

theorem applyColE_ok {df : Df} {src dst : String} {f : PyVal → Except String PyVal}
    {df2 : Df} (h : applyColE df src dst f = .ok df2) :
    df2.rows.length = df.rows.length ∧
    (∀ x ∈ df.cols, x ∈ df2.cols) ∧ (∀ x ∈ df2.cols, x ∈ df.cols ∨ x = dst) := by
  simp only [applyColE] at h
  split at h
  · exact absurd h (by simp)
  next vs hvs =>
    split at h
    · exact absurd h (by simp)
    next ws hws =>
      simp only [Except.ok.injEq] at h
      subst h
      have hlen : ws.length = df.rows.length := by
        rw [mapE_ok_length hws, (getCol_ok hvs).2]
        simp
      exact ⟨setCol_rows_length hlen, fun x hx => setCol_cols_sub hx,
             fun x hx => setCol_cols_super hx⟩

theorem applyColE_sacar_ok {df : Df} (h : "location" ∈ df.cols) :
    applyColE df "location" "Direccion" (fun x => .ok (sacar_valor x)) =
      .ok (setCol df "Direccion"
        ((df.rows.map (fun r => valorColumna df r "location")).map sacar_valor)) := by
  simp only [applyColE, getCol_of_mem h, mapE_total]

theorem dropDupFirst_length_le (idx : Nat) :
    ∀ (seen : List PyVal) (rs : List (List PyVal)),
      (dropDupFirst idx seen rs).length ≤ rs.length := by
  intro seen rs
  induction rs generalizing seen with
  | nil => simp [dropDupFirst]
  | cons r t ih =>
      simp only [dropDupFirst]
      split
      · exact Nat.le_succ_of_le (ih seen)
      · simpa using Nat.succ_le_succ (ih _)

theorem drop_duplicates_name_of_mem {df : Df} (hn : "name" ∈ df.cols) :
    drop_duplicates_name df = .ok { cols := df.cols, rows := nameDedupRows df } := by
  simp only [drop_duplicates_name, if_pos hn]

theorem drop_duplicates_name_ok {df df1 : Df} (h : drop_duplicates_name df = .ok df1) :
    "name" ∈ df.cols ∧ df1.cols = df.cols ∧ df1.rows = nameDedupRows df := by
  by_cases hn : "name" ∈ df.cols
  · rw [drop_duplicates_name_of_mem hn] at h
    simp only [Except.ok.injEq] at h
    subst h
    exact ⟨hn, rfl, rfl⟩
  · simp only [drop_duplicates_name, if_neg hn] at h
    exact absurd h (by simp)

theorem dropCols_ok {df : Df} {cs : List String} {df2 : Df}
    (h : dropCols df cs = .ok df2) :
    df2.cols = df.cols.filter (fun c => c ∉ cs) ∧ df2.rows.length = df.rows.length := by
  simp only [dropCols] at h
  split at h
  · simp only [Except.ok.injEq] at h
    subst h
    simp
  · exact absurd h (by simp)

/-- The list of column labels limpieza_df drops, plus the helper column it
creates and drops. -/
def columnasEliminadas : List String :=
  ["fsq_id", "categories", "chains", "closed_bucket", "link", "related_places",
   "timezone", "geocodes", "location", "Coordenadas"]

theorem limpieza_ok_elim {df out : Df} (h : limpieza_df df = .ok out) :
    ∃ df1 df2 df3 df4 df5 df6 df7 df8,
      drop_duplicates_name df = .ok df1 ∧
      applyColE df1 "geocodes" "Coordenadas" (fun x => pySubscript x "main") = .ok df2 ∧
      applyColE df2 "Coordenadas" "Latitud" (fun x => pyGet x "latitude") = .ok df3 ∧
      applyColE df3 "Coordenadas" "Longitud" (fun x => pyGet x "longitude") = .ok df4 ∧
      applyColE df4 "location" "Direccion" (fun x => .ok (sacar_valor x)) = .ok df5 ∧
      dropCols df5 ["fsq_id", "categories", "chains", "closed_bucket", "link",
                    "related_places", "timezone"] = .ok df6 ∧
      dropCols df6 ["geocodes"] = .ok df7 ∧
      dropCols df7 ["location", "Coordenadas"] = .ok df8 ∧
      out = renameCols df8 renombres := by
  simp only [limpieza_df] at h
  split at h
  · exact absurd h (by simp)
  next df1 h1 =>
  split at h
  · exact absurd h (by simp)
  next df2 h2 =>
  split at h
  · exact absurd h (by simp)
  next df3 h3 =>
  split at h
  · exact absurd h (by simp)
  next df4 h4 =>
  split at h
  · exact absurd h (by simp)
  next df5 h5 =>
  split at h
  · exact absurd h (by simp)
  next df6 h6 =>
  split at h
  · exact absurd h (by simp)
  next df7 h7 =>
  split at h
  · exact absurd h (by simp)
  next df8 h8 =>
  simp only [Except.ok.injEq] at h
  exact ⟨df1, df2, df3, df4, df5, df6, df7, df8,
         h1, h2, h3, h4, h5, h6, h7, h8, h.symm⟩

theorem renombrar_spec (b : String) :
    (b = "distance" ∧ renombrar renombres b = "Distancia") ∨
    (b = "name" ∧ renombrar renombres b = "Nombre") ∨
    (b ≠ "distance" ∧ b ≠ "name" ∧ renombrar renombres b = b) := by
  by_cases h1 : b = "distance"
  · subst h1; left; exact ⟨rfl, rfl⟩
  · by_cases h2 : b = "name"
    · subst h2; right; left; exact ⟨rfl, rfl⟩
    · right; right
      refine ⟨h1, h2, ?_⟩
      have hb1 : (b == "distance") = false := by simp [h1]
      have hb2 : (b == "name") = false := by simp [h2]
      simp [renombrar, renombres, List.lookup, hb1, hb2]

/-- The facts about a successful run of limpieza_df that the claims need:
the input had a name column, the output row count is the count of surviving
rows (of rows at all), none of the dropped labels survives, name and
distance are renamed away, Nombre exists, and Distancia exists whenever the
input had a distance column. -/
theorem limpieza_props {df out : Df} (h : limpieza_df df = .ok out) :
    "name" ∈ df.cols ∧
    out.rows.length = (nameDedupRows df).length ∧
    out.rows.length ≤ df.rows.length ∧
    (∀ c ∈ columnasEliminadas, c ∉ out.cols) ∧
    "name" ∉ out.cols ∧ "distance" ∉ out.cols ∧ "Nombre" ∈ out.cols ∧
    ("distance" ∈ df.cols → "Distancia" ∈ out.cols) := by
  obtain ⟨df1, df2, df3, df4, df5, df6, df7, df8,
          h1, h2, h3, h4, h5, h6, h7, h8, hout⟩ := limpieza_ok_elim h
  obtain ⟨hname, hcols1, hrows1⟩ := drop_duplicates_name_ok h1
  obtain ⟨hlen2, hsub2, hsuper2⟩ := applyColE_ok h2
  obtain ⟨hlen3, hsub3, hsuper3⟩ := applyColE_ok h3
  obtain ⟨hlen4, hsub4, hsuper4⟩ := applyColE_ok h4
  obtain ⟨hlen5, hsub5, hsuper5⟩ := applyColE_ok h5
  obtain ⟨hcols6, hlen6⟩ := dropCols_ok h6
  obtain ⟨hcols7, hlen7⟩ := dropCols_ok h7
  obtain ⟨hcols8, hlen8⟩ := dropCols_ok h8
  -- row counts
  have hcount : out.rows.length = (nameDedupRows df).length := by
    rw [hout]
    show df8.rows.length = _
    rw [hlen8, hlen7, hlen6, hlen5, hlen4, hlen3, hlen2, hrows1]
  have hle : (nameDedupRows df).length ≤ df.rows.length := by
    simpa [nameDedupRows] using dropDupFirst_length_le (df.cols.indexOf "name") [] df.rows
  -- upward membership: a surviving input column is still there before the rename
  have hup : ∀ x, x ∈ df.cols →
      x ∉ (["fsq_id", "categories", "chains", "closed_bucket", "link",
            "related_places", "timezone"] : List String) →
      x ≠ "geocodes" → x ≠ "location" → x ≠ "Coordenadas" → x ∈ df8.cols := by
    intro x hx hx1 hx2 hx3 hx4
    have m1 : x ∈ df1.cols := hcols1 ▸ hx
    have m5 : x ∈ df5.cols := hsub5 _ (hsub4 _ (hsub3 _ (hsub2 _ m1)))
    have m6 : x ∈ df6.cols := by
      rw [hcols6, List.mem_filter]
      exact ⟨m5, by simpa using hx1⟩
    have m7 : x ∈ df7.cols := by
      rw [hcols7, List.mem_filter]
      exact ⟨m6, by simpa using hx2⟩
    rw [hcols8, List.mem_filter]
    exact ⟨m7, by simp [hx3, hx4]⟩
  -- downward: a column surviving to df8 avoids every dropped label
  have hdown : ∀ b, b ∈ df8.cols → ∀ c ∈ columnasEliminadas, b ≠ c := by
    intro b hb c hc
    rw [hcols8, List.mem_filter] at hb
    obtain ⟨hb7, hbno8⟩ := hb
    rw [hcols7, List.mem_filter] at hb7
    obtain ⟨hb6, hbno7⟩ := hb7
    rw [hcols6, List.mem_filter] at hb6
    obtain ⟨_, hbno6⟩ := hb6
    simp only [decide_not, Bool.not_eq_true', decide_eq_false_iff_not] at hbno6 hbno7 hbno8
    simp only [columnasEliminadas, List.mem_cons, List.not_mem_nil, or_false] at hc
    intro hbc
    subst hbc
    rcases hc with h | h | h | h | h | h | h | h | h | h <;> subst h <;>
      revert hbno6 hbno7 hbno8 <;> decide
  -- membership in the output columns
  have houtmem : ∀ x, x ∈ out.cols ↔ ∃ b ∈ df8.cols, renombrar renombres b = x := by
    intro x
    rw [hout]
    show x ∈ df8.cols.map (renombrar renombres) ↔ _
    simp [List.mem_map]
  refine ⟨hname, hcount, hcount ▸ hle, ?_, ?_, ?_, ?_, ?_⟩
  · -- dropped labels are gone
    intro c hc hmem
    rw [houtmem] at hmem
    obtain ⟨b, hb, hbc⟩ := hmem
    rcases renombrar_spec b with ⟨_, he⟩ | ⟨_, he⟩ | ⟨_, _, he⟩
    · rw [he] at hbc
      subst hbc
      simp only [columnasEliminadas, List.mem_cons, List.not_mem_nil, or_false] at hc
      rcases hc with h | h | h | h | h | h | h | h | h | h <;> exact absurd h.symm (by decide)
    · rw [he] at hbc
      subst hbc
      simp only [columnasEliminadas, List.mem_cons, List.not_mem_nil, or_false] at hc
      rcases hc with h | h | h | h | h | h | h | h | h | h <;> exact absurd h.symm (by decide)
    · rw [he] at hbc
      subst hbc
      exact hdown b hb b hc rfl
  · -- name is renamed away
    intro hmem
    rw [houtmem] at hmem
    obtain ⟨b, hb, hbc⟩ := hmem
    rcases renombrar_spec b with ⟨_, he⟩ | ⟨_, he⟩ | ⟨_, hbn, he⟩
    · rw [he] at hbc; exact absurd hbc (by decide)
    · rw [he] at hbc; exact absurd hbc (by decide)
    · rw [he] at hbc; exact hbn hbc
  · -- distance is renamed away
    intro hmem
    rw [houtmem] at hmem
    obtain ⟨b, hb, hbc⟩ := hmem
    rcases renombrar_spec b with ⟨hbd, he⟩ | ⟨_, he⟩ | ⟨hbd, _, he⟩
    · rw [he] at hbc; exact absurd hbc (by decide)
    · rw [he] at hbc; exact absurd hbc (by decide)
    · rw [he] at hbc; exact hbd hbc
  · -- Nombre exists
    rw [houtmem]
    exact ⟨"name", hup "name" hname (by decide) (by decide) (by decide) (by decide), rfl⟩
  · -- Distancia exists when distance did
    intro hd
    rw [houtmem]
    exact ⟨"distance", hup "distance" hd (by decide) (by decide) (by decide) (by decide), rfl⟩

/-! ### Helper lemmas about the accumulation loop -/

section Acumulacion

variable {α : Type} [DecidableEq α]

theorem firstDedup_nil : firstDedup ([] : List α) = [] := rfl

theorem firstDedup_cons (a : α) (t : List α) :
    firstDedup (a :: t) = a :: (firstDedup t).filter (fun b => b ≠ a) := rfl

theorem mem_of_mem_firstDedup {x : α} : ∀ {l : List α}, x ∈ firstDedup l → x ∈ l := by
  intro l
  induction l with
  | nil => intro h; exact absurd h (by simp [firstDedup_nil])
  | cons a t ih =>
      intro h
      rw [firstDedup_cons] at h
      rcases List.mem_cons.mp h with h1 | h1
      · exact h1 ▸ List.mem_cons_self a t
      · exact List.mem_cons_of_mem a (ih (List.mem_of_mem_filter h1))

theorem firstDedup_filter (p : α → Bool) :
    ∀ l : List α, firstDedup (l.filter p) = (firstDedup l).filter p := by
  intro l
  induction l with
  | nil => rfl
  | cons a t ih =>
      by_cases hp : p a
      · rw [firstDedup_cons, List.filter_cons_of_pos hp, firstDedup_cons, ih,
            List.filter_cons_of_pos hp, List.filter_filter, List.filter_filter]
        congr 1
        exact List.filter_congr (fun b _ => by rw [Bool.and_comm])
      · rw [firstDedup_cons, List.filter_cons_of_neg (by simpa using hp), ih,
            List.filter_cons_of_neg (by simpa using hp), List.filter_filter]
        refine List.filter_congr (fun b _ => ?_)
        by_cases hb : p b
        · have : b ≠ a := fun hba => hp (hba ▸ hb)
          simp [hb, this]
        · simp [hb]

theorem agregar_eq (l : List α) :
    ∀ acc : List α, agregar acc l = acc ++ firstDedup (l.filter (fun x => x ∉ acc)) := by
  induction l with
  | nil => intro acc; simp [agregar, firstDedup_nil]
  | cons x t ih =>
      intro acc
      show agregar (if x ∈ acc then acc else acc ++ [x]) t = _
      by_cases hx : x ∈ acc
      · rw [if_pos hx, ih acc, List.filter_cons_of_neg (by simpa using hx)]
      · rw [if_neg hx, ih (acc ++ [x]),
            List.filter_cons_of_pos (by simpa using hx), firstDedup_cons]
        have hfil : t.filter (fun y => y ∉ acc ++ [x]) =
            (t.filter (fun y => y ∉ acc)).filter (fun y => y ≠ x) := by
          rw [List.filter_filter]
          exact List.filter_congr (fun b _ => by
            by_cases hb1 : b ∈ acc <;> by_cases hb2 : b = x <;>
              simp [hb1, hb2])
        rw [hfil, firstDedup_filter]
        simp

theorem acumular_eq_firstDedup (llamadas : List (List α)) :
    acumular llamadas = firstDedup llamadas.flatten := by
  have hfold : ∀ (L : List (List α)) (acc : List α),
      L.foldl agregar acc = agregar acc L.flatten := by
    intro L
    induction L with
    | nil => intro acc; simp [agregar]
    | cons c rest ih =>
        intro acc
        rw [List.foldl_cons, ih, List.flatten_cons]
        show agregar (agregar acc c) rest.flatten = _
        simp only [agregar, List.foldl_append]
  rw [acumular, hfold, agregar_eq]
  simp only [List.nil_append]
  congr 1
  rw [List.filter_eq_self]
  intro a _
  simp

theorem firstDedup_append_of_disjoint {l1 l2 : List α} (h : ∀ x ∈ l1, x ∉ l2) :
    firstDedup (l1 ++ l2) = firstDedup l1 ++ firstDedup l2 := by
  induction l1 with
  | nil => simp [firstDedup_nil]
  | cons a t ih =>
      rw [List.cons_append, firstDedup_cons, firstDedup_cons,
          ih (fun x hx => h x (List.mem_cons_of_mem a hx)), List.filter_append]
      have : (firstDedup l2).filter (fun b => b ≠ a) = firstDedup l2 := by
        rw [List.filter_eq_self]
        intro b hb
        have hbl2 : b ∈ l2 := mem_of_mem_firstDedup hb
        have hal2 : a ∉ l2 := h a (List.mem_cons_self a t)
        simp only [ne_eq, decide_eq_true_eq]
        exact fun hba => hal2 (hba ▸ hbl2)
      rw [this, List.cons_append]

theorem firstDedup_flatten_length {llamadas : List (List α)} {k : Nat}
    (hk : ∀ c ∈ llamadas, (firstDedup c).length = k)
    (hd : llamadas.Pairwise (fun c1 c2 => ∀ x ∈ c1, x ∉ c2)) :
    (firstDedup llamadas.flatten).length = llamadas.length * k := by
  induction llamadas with
  | nil => simp [firstDedup_nil]
  | cons c rest ih =>
      rw [List.pairwise_cons] at hd
      have hdisj : ∀ x ∈ c, x ∉ rest.flatten := by
        intro x hx hmem
        rcases List.mem_flatten.mp hmem with ⟨c2, hc2, hxc2⟩
        exact hd.1 c2 hc2 x hx hxc2
      rw [List.flatten_cons, firstDedup_append_of_disjoint hdisj,
          List.length_append, hk c (List.mem_cons_self c rest),
          ih (fun c2 h2 => hk c2 (List.mem_cons_of_mem c h2)) hd.2]
      rw [List.length_cons, Nat.succ_mul, Nat.add_comm]

end Acumulacion

/-! ### Helper lemmas about the coordinate validator -/

theorem check_loop_eq (towns : List String) :
    ∀ (locs : List Ubicacion) (i : Nat) (ok : Bool),
      i + locs.length ≤ towns.length →
      check_loop towns locs i ok =
        .ok ((((towns.drop i).zip locs).filter (fun p => esMala p.2)).map
               (fun p => "Error en " ++ p.1),
             ok && locs.all (fun l => !esMala l)) := by
  intro locs
  induction locs with
  | nil => intro i ok _; simp [check_loop]
  | cons loc rest ih =>
      intro i ok h
      have hi : i < towns.length := by
        simp only [List.length_cons] at h
        omega
      have hdrop : towns.drop i = towns[i] :: towns.drop (i + 1) :=
        List.drop_eq_getElem_cons hi
      have hrec : i + 1 + rest.length ≤ towns.length := by
        simp only [List.length_cons] at h
        omega
      by_cases hlat : loc.Latitud > 90 ∨ loc.Latitud < -90
      · have hm : esMala loc = true := by simp [esMala, hlat]
        rw [show check_loop towns (loc :: rest) i ok =
              (match towns[i]? with
               | some t =>
                   match check_loop towns rest (i + 1) false with
                   | .ok (msgs, okEnd) => .ok (("Error en " ++ t) :: msgs, okEnd)
                   | .error e => .error e
               | none => .error "IndexError: list index out of range")
            from by rw [check_loop, if_pos hlat]]
        rw [List.getElem?_eq_getElem hi, ih (i + 1) false hrec, hdrop, List.zip_cons_cons,
            List.filter_cons_of_pos (by simpa using hm), List.map_cons]
        simp [hm]
      · by_cases hlon : loc.Longitud > 180 ∨ loc.Longitud < -180
        · have hm : esMala loc = true := by simp [esMala, hlon]
          rw [show check_loop towns (loc :: rest) i ok =
                (match towns[i]? with
                 | some t =>
                     match check_loop towns rest (i + 1) false with
                     | .ok (msgs, okEnd) => .ok (("Error en " ++ t) :: msgs, okEnd)
                     | .error e => .error e
                 | none => .error "IndexError: list index out of range")
              from by rw [check_loop, if_neg hlat, if_pos hlon]]
          rw [List.getElem?_eq_getElem hi, ih (i + 1) false hrec, hdrop, List.zip_cons_cons,
              List.filter_cons_of_pos (by simpa using hm), List.map_cons]
          simp [hm]
        · have hm : esMala loc = false := by
            simp only [esMala, Bool.or_eq_false_iff, decide_eq_false_iff_not]
            exact ⟨hlat, hlon⟩
          rw [show check_loop towns (loc :: rest) i ok =
                check_loop towns rest (i + 1) ok
              from by rw [check_loop, if_neg hlat, if_neg hlon],
              ih (i + 1) ok hrec, hdrop, List.zip_cons_cons,
              List.filter_cons_of_neg (by simp [hm])]
          simp [hm]

/-! ### The claims -/

/-- Claim C1.  The spec says a coordinate whose call returns no value (for
example a 403 response) leaves the batch loop unharmed: no additions to the
accumulator, a zero-row output table, a printed Error 403 line.  The code
disagrees: buscar_lugares_cercanos does return None and print Error 403 on
a 403 response, but the loop then evaluates res.get(results, []) on None,
which raises AttributeError, so a batch over a single coordinate whose call
returns 403 aborts instead of producing a zero-row table. -/
theorem claim_C1 :
    (buscar_lugares_cercanos ("40.4166", "-3.7003") none none 1000
        { status_code := 403, json := .vdict .dnil }).2 =
      (none, ["Error 403"]) ∧
    obtener_df_lugares [none] =
      .error "AttributeError: NoneType object has no attribute get" := by
  exact ⟨rfl, rfl⟩

/-- Claim C3 (amended).  For every record, the Direccion step of limpieza_df
applies sacar_valor to the location value and never raises: the result is
the stored formatted_address value when the location dictionary has one,
Python None (not NaN) when the dictionary lacks the key, and NaN exactly
when the extraction fails because the value is not a dictionary. -/
theorem claim_C3 (df : Df) (hloc : "location" ∈ df.cols) :
    applyColE df "location" "Direccion" (fun x => .ok (sacar_valor x)) =
      .ok (setCol df "Direccion"
        ((df.rows.map (fun r => valorColumna df r "location")).map sacar_valor)) ∧
    (∀ (d : PyDict) (v : PyVal), d.lookup "formatted_address" = some v →
      sacar_valor (.vdict d) = v) ∧
    (∀ d : PyDict, d.lookup "formatted_address" = none →
      sacar_valor (.vdict d) = .vnone) ∧
    (∀ x : PyVal, (∀ d : PyDict, x ≠ .vdict d) → sacar_valor x = .vnan) := by
  refine ⟨applyColE_sacar_ok hloc, ?_, ?_, ?_⟩
  · intro d v h
    simp [sacar_valor, pyGet, h]
  · intro d h
    simp [sacar_valor, pyGet, h]
  · intro x hx
    cases x with
    | vdict d => exact absurd rfl (hx d)
    | vnone => rfl
    | vnan => rfl
    | vbool b => rfl
    | vint n => rfl
    | vstr s => rfl
    | vlist l => rfl

/-- Witness for claim C3 at a concrete table holding a location column. -/
theorem claim_C3_witness :
    "location" ∈ dfLugares.cols ∧
    applyColE dfLugares "location" "Direccion" (fun x => .ok (sacar_valor x)) =
      .ok (setCol dfLugares "Direccion"
        ((dfLugares.rows.map (fun r => valorColumna dfLugares r "location")).map
          sacar_valor)) :=
  ⟨by decide, (claim_C3 dfLugares (by decide)).1⟩

/-- Counterexample for claim C3 as stated: on a location dictionary that
lacks a formatted address the stored value is Python None, not the numeric
NaN marker the claim asserts. -/
theorem claim_C3_counterexample :
    sacar_valor (.vdict .dnil) = .vnone ∧ sacar_valor (.vdict .dnil) ≠ .vnan := by
  decide

/-- The keys of the outgoing request dictionary, in closed form. -/
theorem llaves_buscar_params (coordenadas : String × String)
    (categoria query : Option String) (distancia : Int) :
    llaves (buscar_params coordenadas categoria query distancia) =
      ["ll", "radius"] ++
        (if truthy categoria then ["categories"]
         else if truthy query then ["query"] else []) := by
  rcases categoria with _ | c
  · rcases query with _ | q
    · simp [buscar_params, llaves, truthy]
    · by_cases hq : q.isEmpty <;> simp [buscar_params, llaves, truthy, hq]
  · rcases query with _ | q
    · by_cases hc : c.isEmpty <;> simp [buscar_params, llaves, truthy, hc]
    · by_cases hc : c.isEmpty <;> by_cases hq : q.isEmpty <;>
        simp [buscar_params, llaves, truthy, hc, hq]

/-- Claim C4 (amended).  The outgoing request always carries ll and radius,
and never carries categories and query together; when the category argument
is truthy (supplied and non-empty) it wins over the query.  An empty-string
category is falsy in Python, so it is skipped and a supplied query is
attached instead: precedence as originally stated holds only for truthy
categories. -/
theorem claim_C4 (coordenadas : String × String) (categoria query : Option String)
    (distancia : Int) :
    ("ll" ∈ llaves (buscar_params coordenadas categoria query distancia) ∧
     "radius" ∈ llaves (buscar_params coordenadas categoria query distancia)) ∧
    ¬("categories" ∈ llaves (buscar_params coordenadas categoria query distancia) ∧
      "query" ∈ llaves (buscar_params coordenadas categoria query distancia)) ∧
    (truthy categoria = true →
      "categories" ∈ llaves (buscar_params coordenadas categoria query distancia) ∧
      "query" ∉ llaves (buscar_params coordenadas categoria query distancia)) := by
  rw [llaves_buscar_params]
  rcases hcat : truthy categoria
  · rcases hq : truthy query <;> simp
  · simp

/-- Witness for claim C4 with a truthy category and a supplied query. -/
theorem claim_C4_witness :
    truthy (some "13065") = true ∧
    ("categories" ∈ llaves (buscar_params ("40.4166", "-3.7003") (some "13065")
        (some "coffee") 1000) ∧
     "query" ∉ llaves (buscar_params ("40.4166", "-3.7003") (some "13065")
        (some "coffee") 1000)) :=
  ⟨by decide,
   (claim_C4 ("40.4166", "-3.7003") (some "13065") (some "coffee") 1000).2.2 (by decide)⟩

/-- Counterexample for claim C4 as stated: with both arguments supplied but
the category the empty string, the request carries the query and not the
category, so the category does not take precedence. -/
theorem claim_C4_counterexample :
    "categories" ∉ llaves (buscar_params ("40.4166", "-3.7003") (some "")
      (some "pizza") 1000) ∧
    "query" ∈ llaves (buscar_params ("40.4166", "-3.7003") (some "")
      (some "pizza") 1000) := by
  decide

/-- Claim C5.  Given a 200 response, buscar_lugares_cercanos returns exactly
the parsed body and prints nothing; given any other status it returns no
value and prints an error line carrying the status code. -/
theorem claim_C5 (coordenadas : String × String) (categoria query : Option String)
    (distancia : Int) (r : Respuesta) :
    (r.status_code = 200 →
      buscar_lugares_cercanos coordenadas categoria query distancia r =
        (buscar_params coordenadas categoria query distancia, some r.json, [])) ∧
    (r.status_code ≠ 200 →
      buscar_lugares_cercanos coordenadas categoria query distancia r =
        (buscar_params coordenadas categoria query distancia, none,
         ["Error " ++ toString r.status_code])) := by
  constructor
  · intro h
    simp [buscar_lugares_cercanos, h]
  · intro h
    simp [buscar_lugares_cercanos, h]

/-- Witness for claim C5 at a 200 and at a 403 response. -/
theorem claim_C5_witness :
    buscar_lugares_cercanos ("40.4166", "-3.7003") none none 1000
        { status_code := 200, json := .vdict .dnil } =
      (buscar_params ("40.4166", "-3.7003") none none 1000, some (.vdict .dnil), []) ∧
    buscar_lugares_cercanos ("40.4166", "-3.7003") none none 1000
        { status_code := 403, json := .vdict .dnil } =
      (buscar_params ("40.4166", "-3.7003") none none 1000, none, ["Error 403"]) :=
  ⟨(claim_C5 ("40.4166", "-3.7003") none none 1000
      { status_code := 200, json := .vdict .dnil }).1 rfl,
   (claim_C5 ("40.4166", "-3.7003") none none 1000
      { status_code := 403, json := .vdict .dnil }).2 (by decide)⟩

/-- Claim C2 (amended).  When a record that survives duplicate removal by
name carries a geocodes value on which the main subscript raises, the whole
limpieza_df call aborts with an error: no per-record isolation.  No such
structural requirement holds for the location column: its extraction step
succeeds on any table that has the column, whatever the values.  (As
originally stated the claim quantified over every record of the input; a
record removed as a name-duplicate before the geocode step escapes it, see
the counterexample.) -/
theorem claim_C2 (df : Df) (r : List PyVal) (e : String)
    (hn : "name" ∈ df.cols) (hg : "geocodes" ∈ df.cols)
    (hr : r ∈ nameDedupRows df)
    (he : pySubscript (valorColumna df r "geocodes") "main" = .error e) :
    (∃ e2, limpieza_df df = .error e2) ∧
    (∀ df2 : Df, "location" ∈ df2.cols →
      ∃ out, applyColE df2 "location" "Direccion" (fun x => .ok (sacar_valor x)) =
        .ok out) := by
  constructor
  · have h1 : drop_duplicates_name df =
        .ok { cols := df.cols, rows := nameDedupRows df } :=
      drop_duplicates_name_of_mem hn
    have hg1 : "geocodes" ∈ (Df.mk df.cols (nameDedupRows df)).cols := hg
    have hvmem : valorColumna df r "geocodes" ∈
        (Df.mk df.cols (nameDedupRows df)).rows.map
          (fun rr => valorColumna (Df.mk df.cols (nameDedupRows df)) rr "geocodes") :=
      List.mem_map_of_mem _ hr
    obtain ⟨e2, he2⟩ := mapE_error_of_mem (fun x => pySubscript x "main") hvmem he
    refine ⟨e2, ?_⟩
    have happ : applyColE (Df.mk df.cols (nameDedupRows df)) "geocodes" "Coordenadas"
        (fun x => pySubscript x "main") = .error e2 := by
      simp only [applyColE, getCol_of_mem hg1, he2]
    simp only [limpieza_df, h1, happ]
  · intro df2 hl
    exact ⟨_, applyColE_sacar_ok hl⟩

/-- Witness for claim C2 at a concrete table whose only row survives
duplicate removal and lacks the main geocode. -/
theorem claim_C2_witness :
    ("name" ∈ dfMalGeo.cols ∧ "geocodes" ∈ dfMalGeo.cols ∧
     [PyVal.vstr "a", geoSinMain] ∈ nameDedupRows dfMalGeo) ∧
    (∃ e2, limpieza_df dfMalGeo = .error e2) :=
  ⟨⟨by decide, by decide, by decide⟩,
   (claim_C2 dfMalGeo [PyVal.vstr "a", geoSinMain] "KeyError: main"
      (by decide) (by decide) (by decide) rfl).1⟩

/-- Counterexample for claim C2 as stated: dfLugares holds a record whose
geocodes value lacks the main key, yet limpieza_df succeeds, because that
record is removed as a name-duplicate before the geocode step runs. -/
theorem claim_C2_counterexample :
    pySubscript (valorColumna dfLugares (dfLugares.rows.getD 1 []) "geocodes") "main" =
      .error "KeyError: main" ∧
    limpieza_df dfLugares = .ok dfLugaresLimpio := by
  exact ⟨rfl, rfl⟩

/-- Claim C6.  A record is appended to the accumulator exactly when no equal
record is already present, so the accumulator is the first-occurrence
deduplication of the concatenated call results, in coordinate-then-within-
call order; with each of the N calls contributing k distinct records and no
record shared between calls, the accumulator holds exactly N times k
records. -/
theorem claim_C6 (llamadas : List (List PyVal)) (k : Nat)
    (hk : ∀ c ∈ llamadas, (firstDedup c).length = k)
    (hd : llamadas.Pairwise (fun c1 c2 => ∀ x ∈ c1, x ∉ c2)) :
    acumular llamadas = firstDedup llamadas.flatten ∧
    (acumular llamadas).length = llamadas.length * k := by
  refine ⟨acumular_eq_firstDedup llamadas, ?_⟩
  rw [acumular_eq_firstDedup llamadas]
  exact firstDedup_flatten_length hk hd

/-- Witness for claim C6 on a concrete batch of two disjoint calls with two
distinct records each, one record repeated within the first call. -/
theorem claim_C6_witness :
    (∀ c ∈ llamadasEjemplo, (firstDedup c).length = 2) ∧
    llamadasEjemplo.Pairwise (fun c1 c2 => ∀ x ∈ c1, x ∉ c2) ∧
    acumular llamadasEjemplo = [.vint 1, .vint 2, .vint 3, .vint 4] ∧
    (acumular llamadasEjemplo).length = llamadasEjemplo.length * 2 := by
  have h1 : ∀ c ∈ llamadasEjemplo, (firstDedup c).length = 2 := by decide
  have h2 : llamadasEjemplo.Pairwise (fun c1 c2 => ∀ x ∈ c1, x ∉ c2) := by
    refine List.Pairwise.cons ?_ (List.Pairwise.cons ?_ List.Pairwise.nil) <;> decide
  refine ⟨h1, h2, ?_, (claim_C6 llamadasEjemplo 2 h1 h2).2⟩
  rw [(claim_C6 llamadasEjemplo 2 h1 h2).1]
  decide

/-- Claim C7 (amended).  On success limpieza_df returns a table with at most
as many rows as the input (exactly the rows surviving duplicate removal by
name, first kept), with none of the dropped labels among its columns, with
name and distance renamed away and Nombre present; Distancia is present
whenever the input table had a distance column (a table without one, which
limpieza_df accepts, yields no Distancia, see the counterexample). -/
theorem claim_C7 (df out : Df) (h : limpieza_df df = .ok out) :
    out.rows.length ≤ df.rows.length ∧
    out.rows.length = (nameDedupRows df).length ∧
    (∀ c ∈ columnasEliminadas, c ∉ out.cols) ∧
    "name" ∉ out.cols ∧ "distance" ∉ out.cols ∧ "Nombre" ∈ out.cols ∧
    ("distance" ∈ df.cols → "Distancia" ∈ out.cols) := by
  obtain ⟨_, hcount, hle, hdrop, hname, hdist, hnombre, hdistancia⟩ := limpieza_props h
  exact ⟨hle, hcount, hdrop, hname, hdist, hnombre, hdistancia⟩

/-- Witness for claim C7 on a concrete raw table with a duplicated name and
a distance column. -/
theorem claim_C7_witness :
    limpieza_df dfLugares = .ok dfLugaresLimpio ∧
    dfLugaresLimpio.rows.length ≤ dfLugares.rows.length ∧
    "Nombre" ∈ dfLugaresLimpio.cols ∧ "Distancia" ∈ dfLugaresLimpio.cols := by
  refine ⟨rfl, (claim_C7 dfLugares dfLugaresLimpio rfl).1, ?_, ?_⟩
  · exact (claim_C7 dfLugares dfLugaresLimpio rfl).2.2.2.2.2.1
  · exact (claim_C7 dfLugares dfLugaresLimpio rfl).2.2.2.2.2.2 (by decide)

/-- Counterexample for claim C7 as stated: a table with every required
column except distance passes limpieza_df, and its output has no Distancia
column. -/
theorem claim_C7_counterexample :
    limpieza_df dfSinDistancia = .ok dfSinDistanciaLimpio ∧
    "Distancia" ∉ dfSinDistanciaLimpio.cols := by
  exact ⟨rfl, by decide⟩

/-- Claim C8.  On parallel inputs (the locations list no longer than the
towns list) check_locations prints one error line naming the corresponding
place for each record whose latitude leaves [-90, 90] or whose longitude
leaves [-180, 180], in order, followed by the single success line exactly
when no record violates either range. -/
theorem claim_C8 (towns : List String) (locations : List Ubicacion)
    (h : locations.length ≤ towns.length) :
    check_locations towns locations = .ok
      ((((towns.zip locations).filter (fun p => esMala p.2)).map
          (fun p => "Error en " ++ p.1)) ++
        (if locations.all (fun l => !esMala l)
         then ["Todas las coordenadas concuerdan"] else [])) := by
  have hloop := check_loop_eq towns locations 0 true (by simpa using h)
  simp only [check_locations, hloop, List.drop_zero, Bool.true_and]

/-- Witness for claim C8: one good and one violating record. -/
theorem claim_C8_witness :
    check_locations ["Madrid", "Atlantis"] [⟨40, -3⟩, ⟨100, 200⟩] =
      .ok ["Error en Atlantis"] := by
  have h := claim_C8 ["Madrid", "Atlantis"] [⟨40, -3⟩, ⟨100, 200⟩] (by decide)
  rw [h]
  rfl

/-- Claim C9 (amended).  check_locations never raises provided every
location record carries numeric coordinates and the towns list is at least
as long as the locations list; with a shorter towns list it does raise, see
the counterexample, because reporting a violation at index i reads
towns[i]. -/
theorem claim_C9 (towns : List String) (locations : List Ubicacion)
    (h : locations.length ≤ towns.length) :
    ∃ msgs, check_locations towns locations = .ok msgs := by
  have hloop := check_loop_eq towns locations 0 true (by simpa using h)
  cases hres : check_locations towns locations with
  | ok msgs => exact ⟨msgs, rfl⟩
  | error e =>
      rw [check_locations, hloop] at hres
      exact absurd hres (by simp)

/-- Witness for claim C9 on lists of equal length. -/
theorem claim_C9_witness :
    ([(⟨40, -3⟩ : Ubicacion)].length ≤ (["Madrid"] : List String).length) ∧
    ∃ msgs, check_locations ["Madrid"] [⟨40, -3⟩] = .ok msgs :=
  ⟨by decide, claim_C9 ["Madrid"] [⟨40, -3⟩] (by decide)⟩

/-- Counterexample for claim C9 as stated: with an empty towns list and one
violating record, the report of the violation indexes past the towns list
and raises IndexError, so the validator does not tolerate every input
shape. -/
theorem claim_C9_counterexample :
    check_locations [] [⟨91, 0⟩] = .error "IndexError: list index out of range" := by
  rfl

/-- Claim C10.  limpieza_df mutates the DataFrame object it is given and
returns that same reference: on a store of objects, the call rewrites the
cell its argument points to with the cleaned table (which always differs
from the original, whose name column is renamed away), leaves every other
cell untouched, allocates nothing, and returns the address it was given, so
the caller's original table is no longer reachable unmodified. -/
theorem claim_C10 (store : List Df) (a : Nat) (store2 : List Df) (b : Nat)
    (h : limpieza_df_ref store a = .ok (store2, b)) :
    b = a ∧ store2.length = store.length ∧
    (∀ j, j ≠ a → store2[j]? = store[j]?) ∧
    ∃ df outDf, store[a]? = some df ∧ limpieza_df df = .ok outDf ∧
      store2[a]? = some outDf ∧ store2[a]? ≠ store[a]? := by
  simp only [limpieza_df_ref] at h
  split at h
  · exact absurd h (by simp)
  next df hdf =>
    split at h
    next e he => exact absurd h (by simp)
    next outDf hout =>
      simp only [Except.ok.injEq, Prod.mk.injEq] at h
      obtain ⟨hstore2, hb⟩ := h
      subst hstore2
      have ha : a < store.length := by
        rcases List.getElem?_eq_some_iff.mp hdf with ⟨ha, _⟩
        exact ha
      have hself : (store.set a outDf)[a]? = some outDf := by
        rw [List.getElem?_set_self ha]
      refine ⟨hb.symm, by simp, ?_, df, outDf, hdf, hout, hself, ?_⟩
      · intro j hj
        exact List.getElem?_set_ne (fun hja => hj hja.symm)
      · rw [hself, hdf]
        intro hcontra
        simp only [Option.some.injEq] at hcontra
        obtain ⟨hn_in, _, _, _, hn_out, _⟩ := limpieza_props hout
        exact hn_out (hcontra ▸ hn_in)

/-- Witness for claim C10 on a one-cell store. -/
theorem claim_C10_witness :
    limpieza_df_ref [dfLugares] 0 = .ok ([dfLugaresLimpio], 0) ∧
    ([dfLugaresLimpio] : List Df).length = ([dfLugares] : List Df).length ∧
    ([dfLugaresLimpio] : List Df)[0]? ≠ ([dfLugares] : List Df)[0]? := by
  have h := claim_C10 [dfLugares] 0 [dfLugaresLimpio] 0 rfl
  refine ⟨rfl, h.2.1, ?_⟩
  obtain ⟨_, _, _, df, outDf, _, _, _, hne⟩ := h
  exact hne

end Soporte
